import Mathlib

/-!
Shallow embedding of the UK salary calculator's income-tax core
(`src/script.js`): the constants, rate templates, personal-allowance
taper, taxable-income computation, dynamic band construction, and the
band-by-band income-tax loop.  JavaScript numbers are modelled as exact
rationals; the JavaScript `Infinity` upper bound is modelled as `none`
in an `Option ℚ`.
-/

namespace UKSalaryCalc

/-- The constant `PERSONAL_ALLOWANCE_FULL = 12570`. -/
def PERSONAL_ALLOWANCE_FULL : ℚ := 12570

/-- The constant `PA_TAPER_THRESHOLD = 100000`. -/
def PA_TAPER_THRESHOLD : ℚ := 100000

/-- The constant `TOP_RATE_THRESHOLD = 125140`. -/
def TOP_RATE_THRESHOLD : ℚ := 125140

/-- One entry of a `TAXABLE_BANDS` template:
`{ name, rate, taxableSize }`, where `taxableSize : null` (the unbounded
sentinel) is modelled as `none`. -/
structure BandTemplate where
  name : String
  rate : ℚ
  taxableSize : Option ℚ
deriving DecidableEq

/-- The `ENG_2025_26` template of `TAXABLE_BANDS`. -/
def ENG_2025_26 : List BandTemplate :=
  [ ⟨"Basic rate", 0.20, some 37700⟩,
    ⟨"Higher rate", 0.40, none⟩,
    ⟨"Additional rate", 0.45, none⟩ ]

/-- The `SCO_2025_26` template of `TAXABLE_BANDS`. -/
def SCO_2025_26 : List BandTemplate :=
  [ ⟨"Starter rate", 0.19, some 2827⟩,
    ⟨"Basic rate", 0.20, some 12094⟩,
    ⟨"Intermediate rate", 0.21, some 16171⟩,
    ⟨"Higher rate", 0.42, some 31338⟩,
    ⟨"Advanced rate", 0.45, none⟩,
    ⟨"Top rate", 0.48, none⟩ ]

/-- The own properties of the object literal `TAXABLE_BANDS`, keyed by
region: `none` when the key is not an own property.  The full
bracket-lookup semantics of `TAXABLE_BANDS[region]`, which also
consults the members inherited from `Object.prototype`, is
`TAXABLE_BANDS_js` further below; for the two defined keys the two
coincide. -/
def TAXABLE_BANDS (region : String) : Option (List BandTemplate) :=
  if region = "ENG_2025_26" then some ENG_2025_26
  else if region = "SCO_2025_26" then some SCO_2025_26
  else none

/-- The function `calculatePersonalAllowance(grossIncome)` from `src/script.js`. -/
def calculatePersonalAllowance (grossIncome : ℚ) : ℚ :=
  if grossIncome ≤ PA_TAPER_THRESHOLD then
    PERSONAL_ALLOWANCE_FULL
  else
    max 0 (PERSONAL_ALLOWANCE_FULL - (grossIncome - PA_TAPER_THRESHOLD) / 2)

/-- The function `calculateTaxableIncome(grossIncome, personalAllowance)` from
`src/script.js`. -/
def calculateTaxableIncome (grossIncome personalAllowance : ℚ) : ℚ :=
  max 0 (grossIncome - personalAllowance)

/-- One element of the list returned by `buildTaxBands`:
`{ name, rate, grossUpTo }`, with `grossUpTo = Infinity` modelled as
`none`. -/
structure TaxBand where
  name : String
  rate : ℚ
  grossUpTo : Option ℚ
deriving DecidableEq

/-- The loop body of `buildTaxBands`, recursing over the remaining
template entries and threading `cumulativeTaxable`.  The JavaScript
index test `i === bandTemplates.length - 1` becomes `rest.isEmpty`. -/
def buildTaxBandsAux (personalAllowance : ℚ) :
    List BandTemplate → ℚ → List TaxBand
  | [], _ => []
  | template :: rest, cumulativeTaxable =>
    match template.taxableSize with
    | none =>
      let grossUpTo : Option ℚ :=
        if rest.isEmpty then none else some TOP_RATE_THRESHOLD
      ⟨template.name, template.rate, grossUpTo⟩ ::
        buildTaxBandsAux personalAllowance rest cumulativeTaxable
    | some sz =>
      let cumulativeTaxable := cumulativeTaxable + sz
      ⟨template.name, template.rate,
        some (personalAllowance + cumulativeTaxable)⟩ ::
        buildTaxBandsAux personalAllowance rest cumulativeTaxable

/-- The function `buildTaxBands(personalAllowance, region)` from `src/script.js`;
`TAXABLE_BANDS[region] || TAXABLE_BANDS.ENG_2025_26` is the `getD`. -/
def buildTaxBands (personalAllowance : ℚ) (region : String) : List TaxBand :=
  buildTaxBandsAux personalAllowance
    ((TAXABLE_BANDS region).getD ENG_2025_26) 0

/-- One element of the `breakdown` array produced by
`calculateIncomeTax`. -/
structure BreakdownEntry where
  name : String
  rate : ℚ
  amountInBand : ℚ
  taxInBand : ℚ
deriving DecidableEq

/-- The `{ totalTax, breakdown }` object returned by
`calculateIncomeTax`. -/
structure TaxResult where
  totalTax : ℚ
  breakdown : List BreakdownEntry
deriving DecidableEq

/-- The expression `Math.min(grossIncome, currentGrossThreshold)` where the threshold
may be `Infinity` (`none`). -/
def minUp (g : ℚ) : Option ℚ → ℚ
  | none => g
  | some u => min g u

/-- The JavaScript comparison `grossIncome <= currentGrossThreshold`
where the threshold may be `Infinity` (`none`). -/
def leUpB (g : ℚ) : Option ℚ → Bool
  | none => true
  | some u => decide (g ≤ u)

/-- The expression `Math.max(0, Math.min(grossIncome, currentGrossThreshold) -
prevGrossThreshold)`.  `prevGrossThreshold` can only be `Infinity`
(`none`) after a band whose `grossUpTo` is `Infinity`; the JavaScript
arithmetic then yields `Math.max(0, -Infinity) = 0`. -/
def grossInBandCalc (g : ℚ) (prev cur : Option ℚ) : ℚ :=
  match prev with
  | none => 0
  | some p => max 0 (minUp g cur - p)

/-- The `for (const band of bands)` loop of `calculateIncomeTax`,
recursing over the bands and threading `prevGrossThreshold`; the
`if (grossIncome <= currentGrossThreshold) break` is the early return
of the singleton. -/
def calcLoop (g : ℚ) : List TaxBand → Option ℚ → TaxResult
  | [], _ => ⟨0, []⟩
  | band :: rest, prev =>
    let amt := grossInBandCalc g prev band.grossUpTo
    let tax := amt * band.rate
    let entry : BreakdownEntry := ⟨band.name, band.rate, amt, tax⟩
    if leUpB g band.grossUpTo then
      ⟨tax, [entry]⟩
    else
      let r := calcLoop g rest band.grossUpTo
      ⟨tax + r.totalTax, entry :: r.breakdown⟩

/-- The function `calculateIncomeTax(grossIncome, personalAllowance, region)` from
`src/script.js`. -/
def calculateIncomeTax (grossIncome personalAllowance : ℚ)
    (region : String) : TaxResult :=
  calcLoop grossIncome (buildTaxBands personalAllowance region)
    (some personalAllowance)

/-- The same loop with the early-termination `break` removed: every
band is processed.  Used to compare the code's early termination with
the conceptual full pass (the spec calls the break an optimization that
must not change results). -/
def calcLoopFull (g : ℚ) : List TaxBand → Option ℚ → TaxResult
  | [], _ => ⟨0, []⟩
  | band :: rest, prev =>
    let amt := grossInBandCalc g prev band.grossUpTo
    let tax := amt * band.rate
    let r := calcLoopFull g rest band.grossUpTo
    ⟨tax + r.totalTax, ⟨band.name, band.rate, amt, tax⟩ :: r.breakdown⟩

/-- The function `calculateIncomeTax` with the early-termination `break` removed. -/
def calculateIncomeTaxFull (grossIncome personalAllowance : ℚ)
    (region : String) : TaxResult :=
  calcLoopFull grossIncome (buildTaxBands personalAllowance region)
    (some personalAllowance)

/-- Order on optional upper bounds, `none` being `Infinity`. -/
def upLEB : Option ℚ → Option ℚ → Bool
  | _, none => true
  | none, some _ => false
  | some a, some b => decide (a ≤ b)

/-- The upper bounds of a band list are non-decreasing, starting from a
given previous threshold. -/
def sortedFromB : Option ℚ → List TaxBand → Bool
  | _, [] => true
  | p, band :: rest =>
    upLEB p band.grossUpTo && sortedFromB band.grossUpTo rest

/-- The final previous-threshold value after walking a band list. -/
def endUp : Option ℚ → List TaxBand → Option ℚ
  | p, [] => p
  | _, band :: rest => endUp band.grossUpTo rest

/-- Sum of the `amountInBand` fields of a breakdown. -/
def sumAmounts (l : List BreakdownEntry) : ℚ :=
  (l.map BreakdownEntry.amountInBand).sum

/-- Sum of the `taxInBand` fields of a breakdown. -/
def sumTaxes (l : List BreakdownEntry) : ℚ :=
  (l.map BreakdownEntry.taxInBand).sum

theorem minUp_le_self (g : ℚ) (u : Option ℚ) : minUp g u ≤ g := by
  rcases u with _ | u
  · exact le_refl g
  · exact min_le_left g u

theorem leUpB_trans {g : ℚ} {x y : Option ℚ} (h₁ : leUpB g x = true)
    (h₂ : upLEB x y = true) : leUpB g y = true := by
  rcases x with _ | p <;> rcases y with _ | q
  · rfl
  · exact absurd h₂ (by simp [upLEB])
  · rfl
  · simp only [leUpB, decide_eq_true_eq] at h₁ ⊢
    simp only [upLEB, decide_eq_true_eq] at h₂
    exact le_trans h₁ h₂

/-- After the break point (gross income at or below the previous
threshold) every remaining band of the full loop is zero-amount and
contributes zero tax, provided bounds stay sorted. -/
theorem calcLoopFull_zero (g : ℚ) :
    ∀ (bands : List TaxBand) (prev : Option ℚ),
    leUpB g prev = true → sortedFromB prev bands = true →
    (calcLoopFull g bands prev).totalTax = 0 ∧
      ∀ e ∈ (calcLoopFull g bands prev).breakdown,
        e.amountInBand = 0 ∧ e.taxInBand = 0 := by
  intro bands
  induction bands with
  | nil => intro prev _ _; exact ⟨rfl, by intro e he; cases he⟩
  | cons band rest ih =>
    intro prev hle hsorted
    simp only [sortedFromB, Bool.and_eq_true] at hsorted
    have hzero : grossInBandCalc g prev band.grossUpTo = 0 := by
      rcases prev with _ | p
      · rfl
      · simp only [leUpB, decide_eq_true_eq] at hle
        simp only [grossInBandCalc]
        have := minUp_le_self g band.grossUpTo
        have : minUp g band.grossUpTo - p ≤ 0 := by linarith
        exact max_eq_left this
    have hle' : leUpB g band.grossUpTo = true := leUpB_trans hle hsorted.1
    have ihres := ih band.grossUpTo hle' hsorted.2
    constructor
    · simp only [calcLoopFull, hzero, zero_mul, zero_add]
      exact ihres.1
    · intro e he
      simp only [calcLoopFull, List.mem_cons] at he
      rcases he with he | he
      · subst he; exact ⟨hzero, by rw [hzero, zero_mul]⟩
      · exact ihres.2 e he

/-- The early-terminating loop produces the same total tax as the full
loop, and its breakdown is a prefix of the full loop's breakdown whose
omitted suffix is entirely zero-amount. -/
theorem calcLoop_eq_full (g : ℚ) :
    ∀ (bands : List TaxBand) (prev : Option ℚ),
    sortedFromB prev bands = true →
    (calcLoop g bands prev).totalTax = (calcLoopFull g bands prev).totalTax ∧
      ∃ rest, (calcLoopFull g bands prev).breakdown =
          (calcLoop g bands prev).breakdown ++ rest ∧
        ∀ e ∈ rest, e.amountInBand = 0 ∧ e.taxInBand = 0 := by
  intro bands
  induction bands with
  | nil =>
    intro prev _
    exact ⟨rfl, [], rfl, by intro e he; cases he⟩
  | cons band rest ih =>
    intro prev hsorted
    simp only [sortedFromB, Bool.and_eq_true] at hsorted
    by_cases hbr : leUpB g band.grossUpTo = true
    · have hz := calcLoopFull_zero g rest band.grossUpTo hbr hsorted.2
      constructor
      · simp only [calcLoop, calcLoopFull, hbr, if_true, hz.1, add_zero]
      · refine ⟨(calcLoopFull g rest band.grossUpTo).breakdown, ?_, hz.2⟩
        simp only [calcLoop, calcLoopFull, hbr, if_true, List.singleton_append]
    · have ihres := ih band.grossUpTo hsorted.2
      obtain ⟨htot, r, hbd, hrz⟩ := ihres
      constructor
      · simp [calcLoop, calcLoopFull, hbr, htot]
      · refine ⟨r, ?_, hrz⟩
        simp [calcLoop, calcLoopFull, hbr, hbd]

/-- In the early-terminating loop the accumulated total tax equals the
sum of the `taxInBand` fields of the produced breakdown. -/
theorem calcLoop_totalTax_eq_sumTaxes (g : ℚ) :
    ∀ (bands : List TaxBand) (prev : Option ℚ),
    (calcLoop g bands prev).totalTax = sumTaxes (calcLoop g bands prev).breakdown := by
  intro bands
  induction bands with
  | nil => intro prev; simp [calcLoop, sumTaxes]
  | cons band rest ih =>
    intro prev
    by_cases hbr : leUpB g band.grossUpTo = true
    · simp [calcLoop, hbr, sumTaxes]
    · simp [calcLoop, hbr, sumTaxes, ih band.grossUpTo]

/-- One step of the telescoping identity: a band's gross amount equals
the difference of the clamped thresholds. -/
theorem grossInBandCalc_telescope (g : ℚ) {prev cur : Option ℚ}
    (h : upLEB prev cur = true) :
    grossInBandCalc g prev cur = minUp g cur - minUp g prev := by
  rcases prev with _ | p <;> rcases cur with _ | u <;>
    simp only [upLEB, decide_eq_true_eq] at h
  · simp [grossInBandCalc, minUp]
  · exact absurd h (by simp)
  · rcases le_total g p with hgp | hpg
    · simp only [grossInBandCalc, minUp]
      rw [min_eq_left hgp, max_eq_left (by linarith), sub_self]
    · simp only [grossInBandCalc, minUp]
      rw [min_eq_right hpg, max_eq_right (by linarith)]
  · rcases le_total g p with hgp | hpg
    · simp only [grossInBandCalc, minUp]
      rw [min_eq_left hgp, min_eq_left (le_trans hgp h),
        max_eq_left (by linarith), sub_self]
    · simp only [grossInBandCalc, minUp]
      rw [min_eq_right hpg]
      have h1 : p ≤ min g u := le_min hpg h
      rw [max_eq_right (by linarith)]

/-- Telescoping sum of band amounts for the full loop: the breakdown's
amounts add up to the clamped span from the initial threshold to the
final one. -/
theorem calcLoopFull_sumAmounts (g : ℚ) :
    ∀ (bands : List TaxBand) (prev : Option ℚ),
    sortedFromB prev bands = true →
    sumAmounts (calcLoopFull g bands prev).breakdown =
      minUp g (endUp prev bands) - minUp g prev := by
  intro bands
  induction bands with
  | nil => intro prev _; simp [calcLoopFull, sumAmounts, endUp]
  | cons band rest ih =>
    intro prev hsorted
    simp only [sortedFromB, Bool.and_eq_true] at hsorted
    have hstep := grossInBandCalc_telescope g hsorted.1
    have ihres := ih band.grossUpTo hsorted.2
    simp only [calcLoopFull, sumAmounts, List.map_cons, List.sum_cons, endUp]
    simp only [sumAmounts] at ihres
    rw [hstep, ihres]
    ring

/-- Every region string resolves (directly or through the `||` fallback)
to one of the two templates. -/
theorem templates_cases (region : String) :
    (TAXABLE_BANDS region).getD ENG_2025_26 = ENG_2025_26 ∨
      (TAXABLE_BANDS region).getD ENG_2025_26 = SCO_2025_26 := by
  unfold TAXABLE_BANDS
  split_ifs with h1 h2
  · exact Or.inl rfl
  · exact Or.inr rfl
  · exact Or.inl rfl

/-- Explicit form of the England/Wales/NI band list. -/
theorem buildTaxBandsAux_eng (a : ℚ) :
    buildTaxBandsAux a ENG_2025_26 0 =
      [⟨"Basic rate", 0.20, some (a + 37700)⟩,
        ⟨"Higher rate", 0.40, some 125140⟩,
        ⟨"Additional rate", 0.45, none⟩] := by
  simp [ENG_2025_26, buildTaxBandsAux, TOP_RATE_THRESHOLD]

/-- Explicit form of the Scotland band list. -/
theorem buildTaxBandsAux_sco (a : ℚ) :
    buildTaxBandsAux a SCO_2025_26 0 =
      [⟨"Starter rate", 0.19, some (a + 2827)⟩,
        ⟨"Basic rate", 0.20, some (a + 14921)⟩,
        ⟨"Intermediate rate", 0.21, some (a + 31092)⟩,
        ⟨"Higher rate", 0.42, some (a + 62430)⟩,
        ⟨"Advanced rate", 0.45, some 125140⟩,
        ⟨"Top rate", 0.48, none⟩] := by
  simp [SCO_2025_26, buildTaxBandsAux, TOP_RATE_THRESHOLD]
  norm_num

/-- For any allowance up to 62710 (in particular any tapered personal
allowance, which is at most 12570) the constructed band bounds are
non-decreasing starting from the allowance itself. -/
theorem sortedFromB_buildTaxBands {a : ℚ} (h1 : a ≤ 62710)
    (region : String) :
    sortedFromB (some a) (buildTaxBands a region) = true := by
  unfold buildTaxBands
  rcases templates_cases region with h | h <;> rw [h]
  · rw [buildTaxBandsAux_eng]
    simp only [sortedFromB, upLEB, Bool.and_eq_true, decide_eq_true_eq]
    exact ⟨by linarith, by linarith, trivial, trivial⟩
  · rw [buildTaxBandsAux_sco]
    simp only [sortedFromB, upLEB, Bool.and_eq_true, decide_eq_true_eq]
    exact ⟨by linarith, by linarith, by linarith, by linarith, by linarith,
      trivial, trivial⟩

/-- The final previous-threshold after walking any constructed band list
is `Infinity`. -/
theorem endUp_buildTaxBands (a : ℚ) (region : String) :
    endUp (some a) (buildTaxBands a region) = none := by
  unfold buildTaxBands
  rcases templates_cases region with h | h <;> rw [h]
  · rw [buildTaxBandsAux_eng]; rfl
  · rw [buildTaxBandsAux_sco]; rfl

/-- Three-branch closed form of the personal-allowance taper. -/
theorem calculatePersonalAllowance_closedForm (g : ℚ) :
    calculatePersonalAllowance g =
      if g ≤ 100000 then 12570
      else if g ≤ 125140 then 12570 - (g - 100000) / 2
      else 0 := by
  unfold calculatePersonalAllowance PERSONAL_ALLOWANCE_FULL PA_TAPER_THRESHOLD
  split_ifs with h1 h2
  · rfl
  · rw [max_eq_right]; linarith
  · rw [max_eq_left]; linarith

theorem calculatePersonalAllowance_nonneg (g : ℚ) :
    0 ≤ calculatePersonalAllowance g := by
  rw [calculatePersonalAllowance_closedForm]
  split_ifs with h1 h2 <;> norm_num
  linarith

theorem calculatePersonalAllowance_le_full (g : ℚ) :
    calculatePersonalAllowance g ≤ 12570 := by
  rw [calculatePersonalAllowance_closedForm]
  split_ifs with h1 h2 <;> norm_num
  linarith

/-- The taper is weakly decreasing in gross income. -/
theorem calculatePersonalAllowance_antitone {g₁ g₂ : ℚ} (h : g₁ ≤ g₂) :
    calculatePersonalAllowance g₂ ≤ calculatePersonalAllowance g₁ := by
  rw [calculatePersonalAllowance_closedForm,
    calculatePersonalAllowance_closedForm]
  split_ifs <;> linarith

/-- Gross income net of allowance is weakly increasing in gross
income (the taper removes at most half a pound per pound). -/
theorem sub_allowance_mono {g₁ g₂ : ℚ} (h : g₁ ≤ g₂) :
    g₁ - calculatePersonalAllowance g₁ ≤ g₂ - calculatePersonalAllowance g₂ := by
  rw [calculatePersonalAllowance_closedForm,
    calculatePersonalAllowance_closedForm]
  split_ifs <;> linarith

theorem sumAmounts_append (l₁ l₂ : List BreakdownEntry) :
    sumAmounts (l₁ ++ l₂) = sumAmounts l₁ + sumAmounts l₂ := by
  simp [sumAmounts]

theorem sumAmounts_eq_zero {l : List BreakdownEntry}
    (h : ∀ e ∈ l, e.amountInBand = 0) : sumAmounts l = 0 := by
  unfold sumAmounts
  refine List.sum_eq_zero ?_
  intro x hx
  obtain ⟨e, he, rfl⟩ := List.mem_map.mp hx
  exact h e he

/-- Under sorted bounds the early break loses no band amount. -/
theorem sumAmounts_calcLoop_eq_full (g : ℚ) (bands : List TaxBand)
    (prev : Option ℚ) (hs : sortedFromB prev bands = true) :
    sumAmounts (calcLoop g bands prev).breakdown =
      sumAmounts (calcLoopFull g bands prev).breakdown := by
  obtain ⟨-, rest, hbd, hz⟩ := calcLoop_eq_full g bands prev hs
  rw [hbd, sumAmounts_append, sumAmounts_eq_zero (fun e he => (hz e he).1),
    add_zero]

/-- End to end: the band amounts of the returned breakdown always add
up to the taxable income `max 0 (grossIncome - allowance)`. -/
theorem sumAmounts_endToEnd (g : ℚ) (region : String) :
    sumAmounts (calculateIncomeTax g (calculatePersonalAllowance g)
        region).breakdown =
      max 0 (g - calculatePersonalAllowance g) := by
  have hpaf : calculatePersonalAllowance g ≤ 62710 :=
    le_trans (calculatePersonalAllowance_le_full g) (by norm_num)
  have hs := sortedFromB_buildTaxBands hpaf region
  unfold calculateIncomeTax
  rw [sumAmounts_calcLoop_eq_full _ _ _ hs,
    calcLoopFull_sumAmounts _ _ _ hs, endUp_buildTaxBands]
  simp only [minUp]
  rcases le_total g (calculatePersonalAllowance g) with h | h
  · rw [min_eq_left h, max_eq_left (by linarith)]; ring
  · rw [min_eq_right h, max_eq_right (by linarith)]

/-- Every rate of a constructed band list lies in `[0, 1]`. -/
theorem rate_bounds_buildTaxBands (a : ℚ) (region : String) :
    ∀ b ∈ buildTaxBands a region, 0 ≤ b.rate ∧ b.rate ≤ 1 := by
  rcases templates_cases region with h | h <;> unfold buildTaxBands <;> rw [h]
  · rw [buildTaxBandsAux_eng]
    intro b hb
    simp only [List.mem_cons, List.not_mem_nil, or_false] at hb
    rcases hb with rfl | rfl | rfl <;> norm_num
  · rw [buildTaxBandsAux_sco]
    intro b hb
    simp only [List.mem_cons, List.not_mem_nil, or_false] at hb
    rcases hb with rfl | rfl | rfl | rfl | rfl | rfl <;> norm_num

theorem grossInBandCalc_nonneg (g : ℚ) (prev cur : Option ℚ) :
    0 ≤ grossInBandCalc g prev cur := by
  rcases prev with _ | p
  · exact le_refl 0
  · exact le_max_left 0 _

/-- With non-negative rates every breakdown entry of the loop has a
non-negative amount and tax. -/
theorem calcLoop_entries_nonneg (g : ℚ) :
    ∀ (bands : List TaxBand) (prev : Option ℚ),
    (∀ b ∈ bands, 0 ≤ b.rate) →
    ∀ e ∈ (calcLoop g bands prev).breakdown,
      0 ≤ e.amountInBand ∧ 0 ≤ e.taxInBand := by
  intro bands
  induction bands with
  | nil => intro prev _ e he; simp [calcLoop] at he
  | cons band rest ih =>
    intro prev hr e he
    have hr0 : 0 ≤ band.rate := hr band (List.mem_cons_self band rest)
    have hamt := grossInBandCalc_nonneg g prev band.grossUpTo
    by_cases hbr : leUpB g band.grossUpTo = true <;>
      simp only [calcLoop, hbr, if_true, if_false, List.mem_cons,
        List.mem_singleton, Bool.false_eq_true] at he
    · rcases he with rfl | he
      · exact ⟨hamt, mul_nonneg hamt hr0⟩
      · cases he
    · rcases he with rfl | he
      · exact ⟨hamt, mul_nonneg hamt hr0⟩
      · exact ih band.grossUpTo (fun b hb => hr b (List.mem_cons_of_mem _ hb))
          e he

/-- With non-negative rates the accumulated total tax is
non-negative. -/
theorem calcLoop_totalTax_nonneg (g : ℚ) :
    ∀ (bands : List TaxBand) (prev : Option ℚ),
    (∀ b ∈ bands, 0 ≤ b.rate) → 0 ≤ (calcLoop g bands prev).totalTax := by
  intro bands
  induction bands with
  | nil => intro prev _; simp [calcLoop]
  | cons band rest ih =>
    intro prev hr
    have hr0 : 0 ≤ band.rate := hr band (List.mem_cons_self band rest)
    have hamt := grossInBandCalc_nonneg g prev band.grossUpTo
    by_cases hbr : leUpB g band.grossUpTo = true <;>
      simp only [calcLoop, hbr, if_true, if_false, Bool.false_eq_true]
    · exact mul_nonneg hamt hr0
    · exact add_nonneg (mul_nonneg hamt hr0)
        (ih band.grossUpTo (fun b hb => hr b (List.mem_cons_of_mem _ hb)))

/-- With rates at most 1 the total tax never exceeds the sum of the
band amounts. -/
theorem calcLoop_totalTax_le_sumAmounts (g : ℚ) :
    ∀ (bands : List TaxBand) (prev : Option ℚ),
    (∀ b ∈ bands, 0 ≤ b.rate ∧ b.rate ≤ 1) →
    (calcLoop g bands prev).totalTax ≤
      sumAmounts (calcLoop g bands prev).breakdown := by
  intro bands
  induction bands with
  | nil => intro prev _; simp [calcLoop, sumAmounts]
  | cons band rest ih =>
    intro prev hr
    have hr0 := hr band (List.mem_cons_self band rest)
    have hamt := grossInBandCalc_nonneg g prev band.grossUpTo
    have hmul : grossInBandCalc g prev band.grossUpTo * band.rate ≤
        grossInBandCalc g prev band.grossUpTo :=
      mul_le_of_le_one_right hamt hr0.2
    by_cases hbr : leUpB g band.grossUpTo = true <;>
      simp only [calcLoop, hbr, if_true, if_false, Bool.false_eq_true,
        sumAmounts, List.map_cons, List.sum_cons, List.map_nil,
        List.sum_nil, add_zero]
    · exact hmul
    · have := ih band.grossUpTo (fun b hb => hr b (List.mem_cons_of_mem _ hb))
      simp only [sumAmounts] at this
      linarith

theorem TAXABLE_BANDS_unknown {region : String} (h1 : region ≠ "ENG_2025_26")
    (h2 : region ≠ "SCO_2025_26") : TAXABLE_BANDS region = none := by
  unfold TAXABLE_BANDS
  rw [if_neg h1, if_neg h2]

/-- Unknown regions fall back to the England/Wales/NI template. -/
theorem buildTaxBands_unknown {region : String} (h1 : region ≠ "ENG_2025_26")
    (h2 : region ≠ "SCO_2025_26") (a : ℚ) :
    buildTaxBands a region = buildTaxBands a "ENG_2025_26" := by
  unfold buildTaxBands
  rw [TAXABLE_BANDS_unknown h1 h2]
  simp [TAXABLE_BANDS]

theorem calculateIncomeTax_unknown {region : String}
    (h1 : region ≠ "ENG_2025_26") (h2 : region ≠ "SCO_2025_26") (g a : ℚ) :
    calculateIncomeTax g a region = calculateIncomeTax g a "ENG_2025_26" := by
  unfold calculateIncomeTax
  rw [buildTaxBands_unknown h1 h2]

theorem buildTaxBands_eng (a : ℚ) :
    buildTaxBands a "ENG_2025_26" =
      [⟨"Basic rate", 0.20, some (a + 37700)⟩,
        ⟨"Higher rate", 0.40, some 125140⟩,
        ⟨"Additional rate", 0.45, none⟩] := by
  unfold buildTaxBands
  have h : (TAXABLE_BANDS "ENG_2025_26").getD ENG_2025_26 = ENG_2025_26 := by
    simp [TAXABLE_BANDS]
  rw [h, buildTaxBandsAux_eng]

theorem buildTaxBands_sco (a : ℚ) :
    buildTaxBands a "SCO_2025_26" =
      [⟨"Starter rate", 0.19, some (a + 2827)⟩,
        ⟨"Basic rate", 0.20, some (a + 14921)⟩,
        ⟨"Intermediate rate", 0.21, some (a + 31092)⟩,
        ⟨"Higher rate", 0.42, some (a + 62430)⟩,
        ⟨"Advanced rate", 0.45, some 125140⟩,
        ⟨"Top rate", 0.48, none⟩] := by
  unfold buildTaxBands
  have h : (TAXABLE_BANDS "SCO_2025_26").getD ENG_2025_26 = SCO_2025_26 := by
    simp [TAXABLE_BANDS]
  rw [h, buildTaxBandsAux_sco]

/-- The end-to-end pipeline of the page scripts: derive the allowance
from gross income by the taper, then run the tax calculation with it;
return the total tax. -/
def endToEndTax (g : ℚ) (region : String) : ℚ :=
  (calculateIncomeTax g (calculatePersonalAllowance g) region).totalTax

theorem pa_below {g : ℚ} (h : g ≤ 100000) :
    calculatePersonalAllowance g = 12570 := by
  rw [calculatePersonalAllowance_closedForm, if_pos h]

theorem pa_taper {g : ℚ} (h1 : 100000 < g) (h2 : g ≤ 125140) :
    calculatePersonalAllowance g = 12570 - (g - 100000) / 2 := by
  rw [calculatePersonalAllowance_closedForm, if_neg (not_le.mpr h1), if_pos h2]

theorem pa_zero {g : ℚ} (h : 125140 ≤ g) :
    calculatePersonalAllowance g = 0 := by
  rw [calculatePersonalAllowance_closedForm]
  split_ifs <;> linarith

theorem min_shift0 (g a c : ℚ) : min g (a + c) - a = min (g - a) c := by
  rcases le_total g (a + c) with h | h
  · rw [min_eq_left h, min_eq_left (by linarith)]
  · rw [min_eq_right h, min_eq_right (by linarith)]
    ring

theorem min_sub_shift (g a c d : ℚ) :
    min g (a + c) - (a + d) = min (g - a) c - d := by
  rcases le_total g (a + c) with h | h
  · rw [min_eq_left h, min_eq_left (by linarith)]
    ring
  · rw [min_eq_right h, min_eq_right (by linarith)]
    ring

theorem amt0_zero {x c : ℚ} (h : x ≤ 0) : max 0 (min x c) = 0 :=
  max_eq_left (le_trans (min_le_left x c) h)

theorem amt0_mid {x c : ℚ} (h1 : 0 ≤ x) (h2 : x ≤ c) :
    max 0 (min x c) = x := by
  rw [min_eq_left h2, max_eq_right h1]

theorem amt0_full {x c : ℚ} (h1 : 0 ≤ c) (h2 : c ≤ x) :
    max 0 (min x c) = c := by
  rw [min_eq_right h2, max_eq_right h1]

theorem amtA_zero {x c d : ℚ} (h : x ≤ d) : max 0 (min x c - d) = 0 := by
  have := min_le_left x c
  exact max_eq_left (by linarith)

theorem amtA_mid {x c d : ℚ} (h1 : d ≤ x) (h2 : x ≤ c) :
    max 0 (min x c - d) = x - d := by
  rw [min_eq_left h2, max_eq_right (by linarith)]

theorem amtA_full {x c d : ℚ} (h1 : d ≤ c) (h2 : c ≤ x) :
    max 0 (min x c - d) = c - d := by
  rw [min_eq_right h2, max_eq_right (by linarith)]

theorem amtB_zero {x d : ℚ} (h : x ≤ d) : max 0 (x - d) = 0 :=
  max_eq_left (by linarith)

theorem amtB_pos {x d : ℚ} (h : d ≤ x) : max 0 (x - d) = x - d :=
  max_eq_right (by linarith)

theorem max0_min_mono {x₁ x₂ c d : ℚ} (h : x₁ ≤ x₂) :
    max 0 (min x₁ c - d) ≤ max 0 (min x₂ c - d) :=
  max_le_max le_rfl (by have := min_le_min h (le_refl c); linarith)

theorem max0_min0_mono {x₁ x₂ c : ℚ} (h : x₁ ≤ x₂) :
    max 0 (min x₁ c) ≤ max 0 (min x₂ c) :=
  max_le_max le_rfl (min_le_min h (le_refl c))

theorem max0_sub_mono {A₁ A₂ B₁ B₂ : ℚ} (hA : A₁ ≤ A₂) (hB : B₂ ≤ B₁) :
    max 0 (A₁ - B₁) ≤ max 0 (A₂ - B₂) :=
  max_le_max le_rfl (by linarith)

/-- The England/Wales/NI end-to-end total tax as the sum of the three
band terms produced by the loop. -/
theorem endToEndTax_eng_raw (g : ℚ) :
    endToEndTax g "ENG_2025_26" =
      max 0 (min g (calculatePersonalAllowance g + 37700) -
          calculatePersonalAllowance g) * 0.20 +
        max 0 (min g 125140 - (calculatePersonalAllowance g + 37700)) * 0.40 +
        max 0 (g - 125140) * 0.45 := by
  have hpaf : calculatePersonalAllowance g ≤ 62710 :=
    le_trans (calculatePersonalAllowance_le_full g) (by norm_num)
  have hs := sortedFromB_buildTaxBands hpaf "ENG_2025_26"
  unfold endToEndTax calculateIncomeTax
  rw [(calcLoop_eq_full g _ _ hs).1, buildTaxBands_eng]
  simp only [calcLoopFull, grossInBandCalc, minUp]
  ring

/-- The Scotland end-to-end total tax as the sum of the six band terms
produced by the loop. -/
theorem endToEndTax_sco_raw (g : ℚ) :
    endToEndTax g "SCO_2025_26" =
      max 0 (min g (calculatePersonalAllowance g + 2827) -
          calculatePersonalAllowance g) * 0.19 +
        max 0 (min g (calculatePersonalAllowance g + 14921) -
          (calculatePersonalAllowance g + 2827)) * 0.20 +
        max 0 (min g (calculatePersonalAllowance g + 31092) -
          (calculatePersonalAllowance g + 14921)) * 0.21 +
        max 0 (min g (calculatePersonalAllowance g + 62430) -
          (calculatePersonalAllowance g + 31092)) * 0.42 +
        max 0 (min g 125140 - (calculatePersonalAllowance g + 62430)) * 0.45 +
        max 0 (g - 125140) * 0.48 := by
  have hpaf : calculatePersonalAllowance g ≤ 62710 :=
    le_trans (calculatePersonalAllowance_le_full g) (by norm_num)
  have hs := sortedFromB_buildTaxBands hpaf "SCO_2025_26"
  unfold endToEndTax calculateIncomeTax
  rw [(calcLoop_eq_full g _ _ hs).1, buildTaxBands_sco]
  simp only [calcLoopFull, grossInBandCalc, minUp]
  ring

/-- England/Wales/NI band terms with the allowance shifted out of the
finite-width bands. -/
theorem endToEndTax_eng_shifted (g : ℚ) :
    endToEndTax g "ENG_2025_26" =
      max 0 (min (g - calculatePersonalAllowance g) 37700) * 0.20 +
        max 0 (min g 125140 - (calculatePersonalAllowance g + 37700)) * 0.40 +
        max 0 (g - 125140) * 0.45 := by
  rw [endToEndTax_eng_raw, min_shift0]

/-- Scotland band terms with the allowance shifted out of the
finite-width bands. -/
theorem endToEndTax_sco_shifted (g : ℚ) :
    endToEndTax g "SCO_2025_26" =
      max 0 (min (g - calculatePersonalAllowance g) 2827) * 0.19 +
        max 0 (min (g - calculatePersonalAllowance g) 14921 - 2827) * 0.20 +
        max 0 (min (g - calculatePersonalAllowance g) 31092 - 14921) * 0.21 +
        max 0 (min (g - calculatePersonalAllowance g) 62430 - 31092) * 0.42 +
        max 0 (min g 125140 - (calculatePersonalAllowance g + 62430)) * 0.45 +
        max 0 (g - 125140) * 0.48 := by
  rw [endToEndTax_sco_raw, min_shift0, min_sub_shift, min_sub_shift,
    min_sub_shift]

theorem endToEndTax_mono_eng {g₁ g₂ : ℚ} (h : g₁ ≤ g₂) :
    endToEndTax g₁ "ENG_2025_26" ≤ endToEndTax g₂ "ENG_2025_26" := by
  rw [endToEndTax_eng_shifted, endToEndTax_eng_shifted]
  have hpa := calculatePersonalAllowance_antitone h
  have hsub := sub_allowance_mono h
  refine add_le_add (add_le_add ?_ ?_) ?_ <;>
    refine mul_le_mul_of_nonneg_right ?_ (by norm_num)
  · exact max0_min0_mono hsub
  · exact max0_sub_mono (min_le_min h le_rfl) (by linarith)
  · exact max0_sub_mono h le_rfl

theorem endToEndTax_mono_sco {g₁ g₂ : ℚ} (h : g₁ ≤ g₂) :
    endToEndTax g₁ "SCO_2025_26" ≤ endToEndTax g₂ "SCO_2025_26" := by
  rw [endToEndTax_sco_shifted, endToEndTax_sco_shifted]
  have hpa := calculatePersonalAllowance_antitone h
  have hsub := sub_allowance_mono h
  refine add_le_add (add_le_add (add_le_add (add_le_add (add_le_add
    ?_ ?_) ?_) ?_) ?_) ?_ <;>
    refine mul_le_mul_of_nonneg_right ?_ (by norm_num)
  · exact max0_min0_mono hsub
  · exact max0_min_mono hsub
  · exact max0_min_mono hsub
  · exact max0_min_mono hsub
  · exact max0_sub_mono (min_le_min h le_rfl) (by linarith)
  · exact max0_sub_mono h le_rfl

/-- End-to-end total tax is weakly increasing in gross income for every
region string. -/
theorem endToEndTax_mono (region : String) {g₁ g₂ : ℚ} (h : g₁ ≤ g₂) :
    endToEndTax g₁ region ≤ endToEndTax g₂ region := by
  by_cases h1 : region = "ENG_2025_26"
  · subst h1; exact endToEndTax_mono_eng h
  by_cases h2 : region = "SCO_2025_26"
  · subst h2; exact endToEndTax_mono_sco h
  · unfold endToEndTax
    rw [calculateIncomeTax_unknown h1 h2, calculateIncomeTax_unknown h1 h2]
    exact endToEndTax_mono_eng h

/-- Explicit piecewise-affine closed form of the England/Wales/NI
end-to-end total tax: five intervals, each carrying an affine function
of gross income. -/
def engTaxPiecewise (g : ℚ) : ℚ :=
  if g ≤ 12570 then 0
  else if g ≤ 50270 then 0.20 * (g - 12570)
  else if g ≤ 100000 then 7540 + 0.40 * (g - 50270)
  else if g ≤ 125140 then 0.60 * g - 32568
  else 42516 + 0.45 * (g - 125140)

/-- Explicit piecewise-affine closed form of the Scotland end-to-end
total tax: eight intervals, each carrying an affine function of gross
income. -/
def scoTaxPiecewise (g : ℚ) : ℚ :=
  if g ≤ 12570 then 0
  else if g ≤ 15397 then 0.19 * (g - 12570)
  else if g ≤ 27491 then 537.13 + 0.20 * (g - 15397)
  else if g ≤ 43662 then 2955.93 + 0.21 * (g - 27491)
  else if g ≤ 75000 then 6351.84 + 0.42 * (g - 43662)
  else if g ≤ 100000 then 19513.80 + 0.45 * (g - 75000)
  else if g ≤ 125140 then 0.675 * g - 36736.20
  else 47733.30 + 0.48 * (g - 125140)

theorem endToEndTax_eng_piecewise (g : ℚ) :
    endToEndTax g "ENG_2025_26" = engTaxPiecewise g := by
  rw [endToEndTax_eng_shifted]
  unfold engTaxPiecewise
  rcases le_or_lt g 12570 with h1 | h1
  · rw [if_pos h1, pa_below (by linarith), amt0_zero (by linarith),
      amtA_zero (by linarith), amtB_zero (by linarith)]
    ring
  rw [if_neg (not_le.mpr h1)]
  rcases le_or_lt g 50270 with h2 | h2
  · rw [if_pos h2, pa_below (by linarith), amt0_mid (by linarith)
      (by linarith), amtA_zero (by linarith), amtB_zero (by linarith)]
    ring
  rw [if_neg (not_le.mpr h2)]
  rcases le_or_lt g 100000 with h3 | h3
  · rw [if_pos h3, pa_below h3, amt0_full (by norm_num) (by linarith),
      amtA_mid (by linarith) (by linarith), amtB_zero (by linarith)]
    ring
  rw [if_neg (not_le.mpr h3)]
  rcases le_or_lt g 125140 with h4 | h4
  · rw [if_pos h4, pa_taper h3 h4, amt0_full (by norm_num) (by linarith),
      amtA_mid (by linarith) (by linarith), amtB_zero (by linarith)]
    ring
  · rw [if_neg (not_le.mpr h4), pa_zero (by linarith),
      amt0_full (by norm_num) (by linarith),
      amtA_full (by norm_num) (by linarith), amtB_pos (by linarith)]
    ring

theorem endToEndTax_sco_piecewise (g : ℚ) :
    endToEndTax g "SCO_2025_26" = scoTaxPiecewise g := by
  rw [endToEndTax_sco_shifted]
  unfold scoTaxPiecewise
  rcases le_or_lt g 12570 with h1 | h1
  · rw [if_pos h1, pa_below (by linarith), amt0_zero (by linarith),
      amtA_zero (by linarith), amtA_zero (by linarith),
      amtA_zero (by linarith), amtA_zero (by linarith),
      amtB_zero (by linarith)]
    ring
  rw [if_neg (not_le.mpr h1)]
  rcases le_or_lt g 15397 with h2 | h2
  · rw [if_pos h2, pa_below (by linarith),
      amt0_mid (by linarith) (by linarith), amtA_zero (by linarith),
      amtA_zero (by linarith), amtA_zero (by linarith),
      amtA_zero (by linarith), amtB_zero (by linarith)]
    ring
  rw [if_neg (not_le.mpr h2)]
  rcases le_or_lt g 27491 with h3 | h3
  · rw [if_pos h3, pa_below (by linarith),
      amt0_full (by norm_num) (by linarith),
      amtA_mid (by linarith) (by linarith), amtA_zero (by linarith),
      amtA_zero (by linarith), amtA_zero (by linarith),
      amtB_zero (by linarith)]
    ring
  rw [if_neg (not_le.mpr h3)]
  rcases le_or_lt g 43662 with h4 | h4
  · rw [if_pos h4, pa_below (by linarith),
      amt0_full (by norm_num) (by linarith),
      amtA_full (by norm_num) (by linarith),
      amtA_mid (by linarith) (by linarith), amtA_zero (by linarith),
      amtA_zero (by linarith), amtB_zero (by linarith)]
    ring
  rw [if_neg (not_le.mpr h4)]
  rcases le_or_lt g 75000 with h5 | h5
  · rw [if_pos h5, pa_below (by linarith),
      amt0_full (by norm_num) (by linarith),
      amtA_full (by norm_num) (by linarith),
      amtA_full (by norm_num) (by linarith),
      amtA_mid (by linarith) (by linarith), amtA_zero (by linarith),
      amtB_zero (by linarith)]
    ring
  rw [if_neg (not_le.mpr h5)]
  rcases le_or_lt g 100000 with h6 | h6
  · rw [if_pos h6, pa_below h6, amt0_full (by norm_num) (by linarith),
      amtA_full (by norm_num) (by linarith),
      amtA_full (by norm_num) (by linarith),
      amtA_full (by norm_num) (by linarith),
      amtA_mid (by linarith) (by linarith), amtB_zero (by linarith)]
    ring
  rw [if_neg (not_le.mpr h6)]
  rcases le_or_lt g 125140 with h7 | h7
  · rw [if_pos h7, pa_taper h6 h7, amt0_full (by norm_num) (by linarith),
      amtA_full (by norm_num) (by linarith),
      amtA_full (by norm_num) (by linarith),
      amtA_full (by norm_num) (by linarith),
      amtA_mid (by linarith) (by linarith), amtB_zero (by linarith)]
    ring
  · rw [if_neg (not_le.mpr h7), pa_zero (by linarith),
      amt0_full (by norm_num) (by linarith),
      amtA_full (by norm_num) (by linarith),
      amtA_full (by norm_num) (by linarith),
      amtA_full (by norm_num) (by linarith),
      amtA_full (by norm_num) (by linarith), amtB_pos (by linarith)]
    ring

/-- Cumulative taxable width of the first `k` template entries, the
unbounded sentinel contributing nothing. -/
def cumWidth (ts : List BandTemplate) (k : ℕ) : ℚ :=
  ((ts.take k).map (fun t => t.taxableSize.getD 0)).sum

/-- The band list as the spec describes the Band Table Builder: walk
the template in order; a finite-width entry gets upper bound
`allowance + cumulative width`; an unbounded-sentinel entry gets the
fixed top-rate threshold unless it is last, in which case it gets
`Infinity`; names, rates and order are preserved. -/
def specBandList (a : ℚ) (ts : List BandTemplate) : List TaxBand :=
  ts.enum.map (fun p =>
    ⟨p.2.name, p.2.rate,
      match p.2.taxableSize with
      | some _ => some (a + cumWidth ts (p.1 + 1))
      | none => if p.1 = ts.length - 1 then none
                else some TOP_RATE_THRESHOLD⟩)

/-- C1 counterexample: at gross income 0 on the England/Wales/NI
template the returned breakdown has a single entry, not one entry per
band of the three-band template — the early-termination `break` drops
the trailing zero-amount bands, so the result is not identical to the
full no-break pass. -/
theorem C1_counterexample :
    (calculateIncomeTax 0 (calculatePersonalAllowance 0)
        "ENG_2025_26").breakdown.length = 1 ∧
    ((TAXABLE_BANDS "ENG_2025_26").getD ENG_2025_26).length = 3 ∧
    (calculateIncomeTax 0 (calculatePersonalAllowance 0)
        "ENG_2025_26").breakdown.length ≠
      ((TAXABLE_BANDS "ENG_2025_26").getD ENG_2025_26).length := by
  have hlen1 : (calculateIncomeTax 0 (calculatePersonalAllowance 0)
      "ENG_2025_26").breakdown.length = 1 := by
    rw [show calculatePersonalAllowance 0 = 12570 from pa_below (by norm_num)]
    unfold calculateIncomeTax
    rw [buildTaxBands_eng]
    have hb : leUpB (0:ℚ) (some ((12570:ℚ) + 37700)) = true := by
      simp [leUpB]
      norm_num
    simp [calcLoop, hb]
  have hlen3 : ((TAXABLE_BANDS "ENG_2025_26").getD ENG_2025_26).length = 3 := by
    simp [TAXABLE_BANDS, ENG_2025_26]
  refine ⟨hlen1, hlen3, ?_⟩
  rw [hlen1, hlen3]
  norm_num

/-- C1 (amended): for every non-negative gross income and every
jurisdiction, with the allowance derived by the taper, the breakdown
contains one entry per template band only up to and including the band
at which the loop breaks; the total tax is identical to the loop run
over all bands without breaking, and the no-break breakdown extends the
returned one by trailing entries that are all zero-amount and
zero-tax. -/
theorem C1_break_prefix_full (g : ℚ) (region : String) (_hg : 0 ≤ g) :
    (calculateIncomeTax g (calculatePersonalAllowance g) region).totalTax =
      (calculateIncomeTaxFull g (calculatePersonalAllowance g)
        region).totalTax ∧
    ∃ rest,
      (calculateIncomeTaxFull g (calculatePersonalAllowance g)
          region).breakdown =
        (calculateIncomeTax g (calculatePersonalAllowance g)
          region).breakdown ++ rest ∧
      ∀ e ∈ rest, e.amountInBand = 0 ∧ e.taxInBand = 0 := by
  have hpaf : calculatePersonalAllowance g ≤ 62710 :=
    le_trans (calculatePersonalAllowance_le_full g) (by norm_num)
  have hs := sortedFromB_buildTaxBands hpaf region
  unfold calculateIncomeTax calculateIncomeTaxFull
  exact calcLoop_eq_full g _ _ hs

/-- Witness for the C1 theorem at gross income 30000 on the
England/Wales/NI template. -/
theorem C1_break_prefix_full_witness :
    (0:ℚ) ≤ 30000 ∧
    ((calculateIncomeTax 30000 (calculatePersonalAllowance 30000)
        "ENG_2025_26").totalTax =
      (calculateIncomeTaxFull 30000 (calculatePersonalAllowance 30000)
        "ENG_2025_26").totalTax ∧
    ∃ rest,
      (calculateIncomeTaxFull 30000 (calculatePersonalAllowance 30000)
          "ENG_2025_26").breakdown =
        (calculateIncomeTax 30000 (calculatePersonalAllowance 30000)
          "ENG_2025_26").breakdown ++ rest ∧
      ∀ e ∈ rest, e.amountInBand = 0 ∧ e.taxInBand = 0) :=
  ⟨by norm_num, C1_break_prefix_full 30000 "ENG_2025_26" (by norm_num)⟩

/-- C2: for every non-negative gross income and every jurisdiction,
with the allowance derived by the taper, the breakdown's band amounts
sum exactly to the taxable income `max 0 (grossIncome - allowance)`,
and the returned total tax equals the sum of the breakdown's per-band
taxes exactly. -/
theorem C2_breakdown_sums (g : ℚ) (region : String) (_hg : 0 ≤ g) :
    sumAmounts (calculateIncomeTax g (calculatePersonalAllowance g)
        region).breakdown =
      calculateTaxableIncome g (calculatePersonalAllowance g) ∧
    (calculateIncomeTax g (calculatePersonalAllowance g) region).totalTax =
      sumTaxes (calculateIncomeTax g (calculatePersonalAllowance g)
        region).breakdown := by
  constructor
  · rw [sumAmounts_endToEnd]
    rfl
  · unfold calculateIncomeTax
    exact calcLoop_totalTax_eq_sumTaxes g _ _

/-- Witness for the C2 theorem at gross income 50000 on the Scotland
template. -/
theorem C2_breakdown_sums_witness :
    (0:ℚ) ≤ 50000 ∧
    (sumAmounts (calculateIncomeTax 50000 (calculatePersonalAllowance 50000)
        "SCO_2025_26").breakdown =
      calculateTaxableIncome 50000 (calculatePersonalAllowance 50000) ∧
    (calculateIncomeTax 50000 (calculatePersonalAllowance 50000)
        "SCO_2025_26").totalTax =
      sumTaxes (calculateIncomeTax 50000 (calculatePersonalAllowance 50000)
        "SCO_2025_26").breakdown) :=
  ⟨by norm_num, C2_breakdown_sums 50000 "SCO_2025_26" (by norm_num)⟩

/-- C3: for every non-negative gross income the allowance equals the
full constant 12570 up to the 100000 threshold, equals
`max 0 (12570 - (grossIncome - 100000) / 2)` above it, and always lies
in `[0, 12570]`. -/
theorem C3_personalAllowance_spec (g : ℚ) (_hg : 0 ≤ g) :
    (g ≤ 100000 → calculatePersonalAllowance g = 12570) ∧
    (100000 < g →
      calculatePersonalAllowance g = max 0 (12570 - (g - 100000) / 2)) ∧
    0 ≤ calculatePersonalAllowance g ∧
    calculatePersonalAllowance g ≤ 12570 := by
  refine ⟨fun h => pa_below h, fun h => ?_,
    calculatePersonalAllowance_nonneg g, calculatePersonalAllowance_le_full g⟩
  unfold calculatePersonalAllowance PERSONAL_ALLOWANCE_FULL PA_TAPER_THRESHOLD
  rw [if_neg (not_le.mpr h)]

/-- Witness for the C3 theorem at gross income 0. -/
theorem C3_personalAllowance_spec_witness :
    (0:ℚ) ≤ 0 ∧
    (((0:ℚ) ≤ 100000 → calculatePersonalAllowance 0 = 12570) ∧
    (100000 < (0:ℚ) →
      calculatePersonalAllowance 0 = max 0 (12570 - ((0:ℚ) - 100000) / 2)) ∧
    0 ≤ calculatePersonalAllowance 0 ∧
    calculatePersonalAllowance 0 ≤ 12570) :=
  ⟨le_refl 0, C3_personalAllowance_spec 0 (le_refl 0)⟩

/-- C4 counterexample: the allowance is not strictly decreasing over
the whole range above 100000 — at 130000 and 140000 it is 0 both
times. -/
theorem C4_counterexample :
    (100000:ℚ) < 130000 ∧ (130000:ℚ) < 140000 ∧
    calculatePersonalAllowance 130000 = calculatePersonalAllowance 140000 ∧
    ¬ calculatePersonalAllowance 140000 < calculatePersonalAllowance 130000 := by
  have h1 : calculatePersonalAllowance 130000 = 0 := pa_zero (by norm_num)
  have h2 : calculatePersonalAllowance 140000 = 0 := pa_zero (by norm_num)
  exact ⟨by norm_num, by norm_num, by rw [h1, h2],
    by rw [h1, h2]; exact lt_irrefl 0⟩

/-- C4 (amended): above 100000 the allowance is strictly decreasing as
long as the larger income is at most 125140; it is exactly 0 at 125140
and remains 0 for every income at or above 125140. -/
theorem C4_taper_strict_until_zero (g₁ g₂ : ℚ) (h1 : 100000 < g₁)
    (h2 : g₁ < g₂) :
    (g₂ ≤ 125140 →
      calculatePersonalAllowance g₂ < calculatePersonalAllowance g₁) ∧
    calculatePersonalAllowance 125140 = 0 ∧
    (125140 ≤ g₁ → calculatePersonalAllowance g₁ = 0) := by
  refine ⟨fun h3 => ?_, pa_zero (by norm_num), fun h4 => pa_zero h4⟩
  rw [pa_taper h1 (by linarith), pa_taper (by linarith) h3]
  linarith

/-- Witness for the C4 theorem at incomes 110000 and 120000. -/
theorem C4_taper_strict_until_zero_witness :
    (100000:ℚ) < 110000 ∧ (110000:ℚ) < 120000 ∧
    (((120000:ℚ) ≤ 125140 →
      calculatePersonalAllowance 120000 < calculatePersonalAllowance 110000) ∧
    calculatePersonalAllowance 125140 = 0 ∧
    ((125140:ℚ) ≤ 110000 → calculatePersonalAllowance 110000 = 0)) :=
  ⟨by norm_num, by norm_num,
    C4_taper_strict_until_zero 110000 120000 (by norm_num) (by norm_num)⟩

/-- C5: for every allowance and every jurisdiction string,
`buildTaxBands` produces exactly the list the spec's Band Table Builder
describes — template order, names and rates preserved; finite-width
entries bounded by allowance plus cumulative width; a non-last
unbounded-sentinel entry bounded by the fixed 125140 threshold
regardless of allowance; a last unbounded-sentinel entry unbounded. -/
theorem C5_buildTaxBands_spec (a : ℚ) (region : String) :
    buildTaxBands a region =
      specBandList a ((TAXABLE_BANDS region).getD ENG_2025_26) := by
  rcases templates_cases region with h | h <;> unfold buildTaxBands <;> rw [h]
  · rw [buildTaxBandsAux_eng]
    simp [specBandList, cumWidth, ENG_2025_26, TOP_RATE_THRESHOLD, List.enum]
  · rw [buildTaxBandsAux_sco]
    simp [specBandList, cumWidth, SCO_2025_26, TOP_RATE_THRESHOLD, List.enum]
    norm_num

/-- C6: for every allowance in `[0, 12570]` and every jurisdiction the
sequence of gross upper bounds produced by `buildTaxBands` is
monotonically non-decreasing, and the last bound is `Infinity`. -/
theorem C6_bounds_monotone (a : ℚ) (region : String) (_h0 : 0 ≤ a)
    (h1 : a ≤ 12570) :
    List.Chain' (fun x y => upLEB x y = true)
      ((buildTaxBands a region).map TaxBand.grossUpTo) ∧
    ((buildTaxBands a region).map TaxBand.grossUpTo).getLast? = some none := by
  rcases templates_cases region with h | h <;> unfold buildTaxBands <;>
    rw [h]
  · rw [buildTaxBandsAux_eng]
    refine ⟨?_, rfl⟩
    simp only [List.map_cons, List.map_nil, List.chain'_cons,
      List.chain'_singleton, upLEB, decide_eq_true_eq, and_true]
    linarith
  · rw [buildTaxBandsAux_sco]
    refine ⟨?_, rfl⟩
    simp only [List.map_cons, List.map_nil, List.chain'_cons,
      List.chain'_singleton, upLEB, decide_eq_true_eq, and_true]
    exact ⟨by linarith, by linarith, by linarith, by linarith⟩

/-- Witness for the C6 theorem at allowance 12570 on the Scotland
template. -/
theorem C6_bounds_monotone_witness :
    (0:ℚ) ≤ 12570 ∧ (12570:ℚ) ≤ 12570 ∧
    (List.Chain' (fun x y => upLEB x y = true)
      ((buildTaxBands 12570 "SCO_2025_26").map TaxBand.grossUpTo) ∧
    ((buildTaxBands 12570 "SCO_2025_26").map TaxBand.grossUpTo).getLast? =
      some none) :=
  ⟨by norm_num, le_refl _,
    C6_bounds_monotone 12570 "SCO_2025_26" (by norm_num) (le_refl _)⟩

/-- C7: for a fixed jurisdiction the end-to-end total tax (allowance
derived from the same gross income) is non-decreasing in gross income,
and it is piecewise linear: on England/Wales/NI it equals the explicit
five-piece affine closed form, on Scotland the explicit eight-piece
affine closed form. -/
theorem C7_totalTax_monotone_piecewise (region : String) (g₁ g₂ : ℚ)
    (_h0 : 0 ≤ g₁) (h : g₁ ≤ g₂) :
    endToEndTax g₁ region ≤ endToEndTax g₂ region ∧
    endToEndTax g₁ "ENG_2025_26" = engTaxPiecewise g₁ ∧
    endToEndTax g₁ "SCO_2025_26" = scoTaxPiecewise g₁ :=
  ⟨endToEndTax_mono region h, endToEndTax_eng_piecewise g₁,
    endToEndTax_sco_piecewise g₁⟩

/-- Witness for the C7 theorem between gross incomes 30000 and 150000
on the England/Wales/NI template. -/
theorem C7_totalTax_monotone_piecewise_witness :
    (0:ℚ) ≤ 30000 ∧ (30000:ℚ) ≤ 150000 ∧
    (endToEndTax 30000 "ENG_2025_26" ≤ endToEndTax 150000 "ENG_2025_26" ∧
    endToEndTax 30000 "ENG_2025_26" = engTaxPiecewise 30000 ∧
    endToEndTax 30000 "SCO_2025_26" = scoTaxPiecewise 30000) :=
  ⟨by norm_num, by norm_num,
    C7_totalTax_monotone_piecewise "ENG_2025_26" 30000 150000 (by norm_num)
      (by norm_num)⟩

/-- A value the JavaScript expression
`TAXABLE_BANDS[region] || TAXABLE_BANDS.ENG_2025_26` can evaluate to:
a genuine template array (an own property of the object literal, or the
fallback), a method inherited from `Object.prototype` (carrying the
arity that its `.length` property reports), or the prototype object
itself (what reading `__proto__` yields; its `.length` is
`undefined`). -/
inductive JSBandSource where
  | arr : List BandTemplate → JSBandSource
  | protoMethod : ℕ → JSBandSource
  | protoObject : JSBandSource
deriving DecidableEq

/-- The members of `Object.prototype` visible through bracket lookup on
an object literal, with the arity each method reports through
`.length`; reading `__proto__` yields the prototype object itself. -/
def objectPrototypeLookup (key : String) : Option JSBandSource :=
  if key = "constructor" then some (JSBandSource.protoMethod 1)
  else if key = "hasOwnProperty" then some (JSBandSource.protoMethod 1)
  else if key = "isPrototypeOf" then some (JSBandSource.protoMethod 1)
  else if key = "propertyIsEnumerable" then some (JSBandSource.protoMethod 1)
  else if key = "toString" then some (JSBandSource.protoMethod 0)
  else if key = "toLocaleString" then some (JSBandSource.protoMethod 0)
  else if key = "valueOf" then some (JSBandSource.protoMethod 0)
  else if key = "__defineGetter__" then some (JSBandSource.protoMethod 2)
  else if key = "__defineSetter__" then some (JSBandSource.protoMethod 2)
  else if key = "__lookupGetter__" then some (JSBandSource.protoMethod 1)
  else if key = "__lookupSetter__" then some (JSBandSource.protoMethod 1)
  else if key = "__proto__" then some JSBandSource.protoObject
  else none

/-- The full semantics of the JavaScript bracket lookup
`TAXABLE_BANDS[region]`: an own property when the key is one of the two
template keys, otherwise whatever `Object.prototype` supplies,
otherwise `undefined` (`none`). -/
def TAXABLE_BANDS_js (region : String) : Option JSBandSource :=
  match TAXABLE_BANDS region with
  | some ts => some (JSBandSource.arr ts)
  | none => objectPrototypeLookup region

/-- The expression `TAXABLE_BANDS[region] || TAXABLE_BANDS.ENG_2025_26`
under the full lookup semantics: only `undefined` is falsy among the
possible lookup results, so an inherited prototype member bypasses the
fallback. -/
def bandTemplatesJS (region : String) : JSBandSource :=
  (TAXABLE_BANDS_js region).getD (JSBandSource.arr ENG_2025_26)

/-- The function `buildTaxBands` over the full lookup semantics.  On a
template array the loop is `buildTaxBandsAux`.  On an inherited method
the loop bound `bandTemplates.length` is the arity: arity 0 runs no
iterations and yields an empty band list; arity at least 1 reads
`bandTemplates[0] = undefined` on the first iteration and the access
`template.taxableSize` throws a TypeError, modelled as `Except.error`.
On the prototype object `.length` is `undefined`, the loop bound
`i < undefined` is false, and no iterations run. -/
def buildTaxBandsJS (personalAllowance : ℚ) (region : String) :
    Except String (List TaxBand) :=
  match bandTemplatesJS region with
  | JSBandSource.arr ts =>
      Except.ok (buildTaxBandsAux personalAllowance ts 0)
  | JSBandSource.protoMethod n =>
      if n = 0 then Except.ok [] else Except.error "TypeError"
  | JSBandSource.protoObject => Except.ok []

/-- The function `calculateIncomeTax` over the full lookup semantics; a
TypeError thrown while building the bands propagates. -/
def calculateIncomeTaxJS (grossIncome personalAllowance : ℚ)
    (region : String) : Except String TaxResult :=
  match buildTaxBandsJS personalAllowance region with
  | Except.error e => Except.error e
  | Except.ok bands =>
      Except.ok (calcLoop grossIncome bands (some personalAllowance))

/-- For a region that is neither a defined key nor an inherited
prototype member, the lookup yields `undefined`, the fallback is taken,
and the faithful build agrees with the plain model on the default
key. -/
theorem buildTaxBandsJS_undefined {region : String}
    (h1 : region ≠ "ENG_2025_26") (h2 : region ≠ "SCO_2025_26")
    (h3 : objectPrototypeLookup region = none) (a : ℚ) :
    buildTaxBandsJS a region = Except.ok (buildTaxBands a "ENG_2025_26") := by
  simp only [buildTaxBandsJS, bandTemplatesJS, TAXABLE_BANDS_js,
    TAXABLE_BANDS_unknown h1 h2, h3, Option.getD]
  rw [buildTaxBandsAux_eng, buildTaxBands_eng]

theorem calculateIncomeTaxJS_undefined {region : String}
    (h1 : region ≠ "ENG_2025_26") (h2 : region ≠ "SCO_2025_26")
    (h3 : objectPrototypeLookup region = none) (g a : ℚ) :
    calculateIncomeTaxJS g a region =
      Except.ok (calculateIncomeTax g a "ENG_2025_26") := by
  unfold calculateIncomeTaxJS calculateIncomeTax
  rw [buildTaxBandsJS_undefined h1 h2 h3]

/-- An inherited zero-arity method or the prototype object bypasses the
fallback and produces an empty band list, hence a zero, empty tax
result. -/
theorem calculateIncomeTaxJS_inheritedEmpty {region : String}
    (h1 : region ≠ "ENG_2025_26") (h2 : region ≠ "SCO_2025_26")
    (h3 : objectPrototypeLookup region = some (JSBandSource.protoMethod 0) ∨
      objectPrototypeLookup region = some JSBandSource.protoObject)
    (g a : ℚ) :
    buildTaxBandsJS a region = Except.ok [] ∧
    calculateIncomeTaxJS g a region = Except.ok ⟨0, []⟩ := by
  have hbuild : buildTaxBandsJS a region = Except.ok [] := by
    rcases h3 with h3 | h3 <;>
      simp [buildTaxBandsJS, bandTemplatesJS, TAXABLE_BANDS_js,
        TAXABLE_BANDS_unknown h1 h2, h3]
  refine ⟨hbuild, ?_⟩
  unfold calculateIncomeTaxJS
  rw [hbuild]
  rfl

/-- An inherited method of positive arity bypasses the fallback and the
first loop iteration throws a TypeError. -/
theorem calculateIncomeTaxJS_typeError {region : String}
    (h1 : region ≠ "ENG_2025_26") (h2 : region ≠ "SCO_2025_26")
    (h3 : objectPrototypeLookup region = some (JSBandSource.protoMethod 1) ∨
      objectPrototypeLookup region = some (JSBandSource.protoMethod 2))
    (g a : ℚ) :
    buildTaxBandsJS a region = Except.error "TypeError" ∧
    calculateIncomeTaxJS g a region = Except.error "TypeError" := by
  have hbuild : buildTaxBandsJS a region = Except.error "TypeError" := by
    rcases h3 with h3 | h3 <;>
      simp [buildTaxBandsJS, bandTemplatesJS, TAXABLE_BANDS_js,
        TAXABLE_BANDS_unknown h1 h2, h3]
  refine ⟨hbuild, ?_⟩
  unfold calculateIncomeTaxJS
  rw [hbuild]

/-- C8 counterexample: under the full bracket-lookup semantics the
claim fails for unknown strings that name `Object.prototype` members.
With the inherited "toString" (a zero-arity function, truthy, so the
`||` fallback is bypassed) the result is an empty breakdown with total
tax 0 — not the England/Wales/NI result, whose total tax at gross
income 30000 is 3486 — and with the inherited "constructor" (arity 1)
the band loop throws a TypeError, so an error is raised. -/
theorem C8_counterexample :
    "toString" ≠ "ENG_2025_26" ∧ "toString" ≠ "SCO_2025_26" ∧
    "constructor" ≠ "ENG_2025_26" ∧ "constructor" ≠ "SCO_2025_26" ∧
    calculateIncomeTaxJS 30000 12570 "toString" =
      Except.ok ⟨0, []⟩ ∧
    (calculateIncomeTax 30000 12570 "ENG_2025_26").totalTax = 3486 ∧
    calculateIncomeTaxJS 30000 12570 "toString" ≠
      Except.ok (calculateIncomeTax 30000 12570 "ENG_2025_26") ∧
    calculateIncomeTaxJS 30000 12570 "constructor" =
      Except.error "TypeError" := by
  have hjs : calculateIncomeTaxJS 30000 12570 "toString" =
      Except.ok ⟨0, []⟩ := rfl
  have hcons : calculateIncomeTaxJS 30000 12570 "constructor" =
      Except.error "TypeError" := rfl
  have heng : (calculateIncomeTax 30000 12570 "ENG_2025_26").totalTax =
      3486 := by
    unfold calculateIncomeTax
    rw [buildTaxBands_eng]
    have hb : leUpB (30000:ℚ) (some ((12570:ℚ) + 37700)) = true := by
      simp [leUpB]
      norm_num
    simp [calcLoop, hb, grossInBandCalc, minUp]
    rw [min_eq_left (by norm_num), max_eq_right (by norm_num)]
    norm_num
  refine ⟨by decide, by decide, by decide, by decide, hjs, heng, ?_, hcons⟩
  rw [hjs]
  intro hcontra
  injection hcontra with h2
  have h3 : (0:ℚ) = (calculateIncomeTax 30000 12570 "ENG_2025_26").totalTax :=
    congrArg TaxResult.totalTax h2
  rw [heng] at h3
  norm_num at h3

/-- C8 (amended): a jurisdiction string other than the two defined keys
falls back to the England/Wales/NI template — results identical to
passing the default identifier explicitly, and no error — exactly when
it is also not a property name inherited from `Object.prototype`.  For
inherited names the `||` fallback is bypassed: a zero-arity method
("toString", "toLocaleString", "valueOf") or the `__proto__` object
yields an empty band list and a zero, empty tax result, while a method
of arity 1 or 2 ("constructor", "hasOwnProperty", "isPrototypeOf",
"propertyIsEnumerable", "__lookupGetter__", "__lookupSetter__",
"__defineGetter__", "__defineSetter__") makes the band loop throw a
TypeError. -/
theorem C8_unknown_region_fallback_amended (region : String)
    (h1 : region ≠ "ENG_2025_26") (h2 : region ≠ "SCO_2025_26")
    (g a : ℚ) (_hg : 0 ≤ g) :
    (objectPrototypeLookup region = none →
      buildTaxBandsJS a region =
        Except.ok (buildTaxBands a "ENG_2025_26") ∧
      calculateIncomeTaxJS g a region =
        Except.ok (calculateIncomeTax g a "ENG_2025_26")) ∧
    (objectPrototypeLookup region = some (JSBandSource.protoMethod 0) ∨
        objectPrototypeLookup region = some JSBandSource.protoObject →
      calculateIncomeTaxJS g a region = Except.ok ⟨0, []⟩) ∧
    (objectPrototypeLookup region = some (JSBandSource.protoMethod 1) ∨
        objectPrototypeLookup region = some (JSBandSource.protoMethod 2) →
      calculateIncomeTaxJS g a region = Except.error "TypeError") :=
  ⟨fun h3 => ⟨buildTaxBandsJS_undefined h1 h2 h3 a,
      calculateIncomeTaxJS_undefined h1 h2 h3 g a⟩,
    fun h3 => (calculateIncomeTaxJS_inheritedEmpty h1 h2 h3 g a).2,
    fun h3 => (calculateIncomeTaxJS_typeError h1 h2 h3 g a).2⟩

/-- Witness for the C8 theorem with the unknown, non-inherited region
string "WALES". -/
theorem C8_unknown_region_fallback_amended_witness :
    "WALES" ≠ "ENG_2025_26" ∧ "WALES" ≠ "SCO_2025_26" ∧ (0:ℚ) ≤ 30000 ∧
    ((objectPrototypeLookup "WALES" = none →
      buildTaxBandsJS 12570 "WALES" =
        Except.ok (buildTaxBands 12570 "ENG_2025_26") ∧
      calculateIncomeTaxJS 30000 12570 "WALES" =
        Except.ok (calculateIncomeTax 30000 12570 "ENG_2025_26")) ∧
    (objectPrototypeLookup "WALES" = some (JSBandSource.protoMethod 0) ∨
        objectPrototypeLookup "WALES" = some JSBandSource.protoObject →
      calculateIncomeTaxJS 30000 12570 "WALES" = Except.ok ⟨0, []⟩) ∧
    (objectPrototypeLookup "WALES" = some (JSBandSource.protoMethod 1) ∨
        objectPrototypeLookup "WALES" = some (JSBandSource.protoMethod 2) →
      calculateIncomeTaxJS 30000 12570 "WALES" =
        Except.error "TypeError")) :=
  ⟨by decide, by decide, by norm_num,
    C8_unknown_region_fallback_amended "WALES" (by decide) (by decide)
      30000 12570 (by norm_num)⟩

/-- C9: for every non-negative gross income and every jurisdiction,
with the allowance derived by the taper, the total tax lies in
`[0, grossIncome]` and every breakdown entry has a non-negative amount
and tax. -/
theorem C9_result_bounds (g : ℚ) (region : String) (hg : 0 ≤ g) :
    0 ≤ (calculateIncomeTax g (calculatePersonalAllowance g)
        region).totalTax ∧
    (calculateIncomeTax g (calculatePersonalAllowance g) region).totalTax ≤
      g ∧
    ∀ e ∈ (calculateIncomeTax g (calculatePersonalAllowance g)
        region).breakdown, 0 ≤ e.amountInBand ∧ 0 ≤ e.taxInBand := by
  have hr := rate_bounds_buildTaxBands (calculatePersonalAllowance g) region
  have h0 : ∀ b ∈ buildTaxBands (calculatePersonalAllowance g) region,
      0 ≤ b.rate := fun b hb => (hr b hb).1
  have hpa := calculatePersonalAllowance_nonneg g
  have hle := calcLoop_totalTax_le_sumAmounts g
    (buildTaxBands (calculatePersonalAllowance g) region)
    (some (calculatePersonalAllowance g)) hr
  have hsum := sumAmounts_endToEnd g region
  unfold calculateIncomeTax at hsum ⊢
  refine ⟨calcLoop_totalTax_nonneg g _ _ h0, ?_,
    calcLoop_entries_nonneg g _ _ h0⟩
  rw [hsum] at hle
  exact le_trans hle (max_le hg (by linarith))

/-- Witness for the C9 theorem at gross income 150000 on the
England/Wales/NI template. -/
theorem C9_result_bounds_witness :
    (0:ℚ) ≤ 150000 ∧
    (0 ≤ (calculateIncomeTax 150000 (calculatePersonalAllowance 150000)
        "ENG_2025_26").totalTax ∧
    (calculateIncomeTax 150000 (calculatePersonalAllowance 150000)
        "ENG_2025_26").totalTax ≤ 150000 ∧
    ∀ e ∈ (calculateIncomeTax 150000 (calculatePersonalAllowance 150000)
        "ENG_2025_26").breakdown, 0 ≤ e.amountInBand ∧ 0 ≤ e.taxInBand) :=
  ⟨by norm_num, C9_result_bounds 150000 "ENG_2025_26" (by norm_num)⟩

/-- C10: a negative gross income takes the `grossIncome ≤ 100000`
branch of the taper, so the allowance is the full 12570, and the
taxable income computed from it is 0; neither function clamps or
rejects the negative input. -/
theorem C10_negative_income (g : ℚ) (hg : g < 0) :
    calculatePersonalAllowance g = 12570 ∧
    calculateTaxableIncome g 12570 = 0 := by
  refine ⟨pa_below (by linarith), ?_⟩
  unfold calculateTaxableIncome
  rw [max_eq_left (by linarith)]

/-- Witness for the C10 theorem at gross income -5. -/
theorem C10_negative_income_witness :
    (-5:ℚ) < 0 ∧
    (calculatePersonalAllowance (-5) = 12570 ∧
      calculateTaxableIncome (-5) 12570 = 0) :=
  ⟨by norm_num, C10_negative_income (-5) (by norm_num)⟩

end UKSalaryCalc
